import Mathlib

set_option autoImplicit false

namespace ElderConnect

/-! Shallow embedding of the authentication core of the elder-connect backend.

Time is carried as `nowMs : Nat`, a millisecond timestamp (the JS `Date.now()` /
`new Date()` value).  JSON-web-token `iat`/`exp` claims are second timestamps,
so minting divides by 1000 (floor), exactly as the `jsonwebtoken` library does.
A signed token is modelled as its payload together with the signing secret:
HS256 signing is deterministic, so two tokens are equal as strings exactly when
their payloads and secrets coincide, which the structure equality mirrors.
Mongo collections are modelled as lists of records; the OTP collection is keyed
by phone number (the handlers upsert on `phoneNumber`, keeping one live record
per phone) and the user collection by `_id`. -/

/-- Environment configuration read by the handlers: `JWT_SECRET`,
`JWT_REFRESH_SECRET`, `OTP_TTL_MS`, `OTP_MAX_ATTEMPTS`, with the defaults
hard-coded at the call sites in `src/routes/auth.js`. -/
structure Config where
  accessSecret : String
  refreshSecret : String
  otpTtlMs : Nat
  maxAttempts : Nat
deriving DecidableEq, Repr

/-- Default configuration: `dev_secret` / `dev_refresh`, 5-minute OTP TTL,
5 attempts (the `||` fallbacks in the source). -/
def defaultConfig : Config :=
  { accessSecret := "dev_secret", refreshSecret := "dev_refresh",
    otpTtlMs := 5 * 60 * 1000, maxAttempts := 5 }

/-- Access-token lifetime in seconds: `expiresIn: "7d"`. -/
def accessTokenLifeSec : Nat := 7 * 24 * 60 * 60

/-- Refresh-token lifetime in seconds: `expiresIn: "30d"`. -/
def refreshTokenLifeSec : Nat := 30 * 24 * 60 * 60

/-- Payload of a signed JWT: subject (user id), the optional `type`
discriminator (`some "refresh"` on refresh tokens, absent on access tokens),
and the issued-at / expiry claims in seconds. -/
structure JwtPayload where
  sub : Nat
  type : Option String
  iat : Nat
  exp : Nat
deriving DecidableEq, Repr

/-- A signed token: payload plus the secret it was signed with.  Equality of
these structures coincides with string equality of the serialized JWTs,
because HS256 signing is a deterministic injective function of both. -/
structure Jwt where
  payload : JwtPayload
  secret : String
deriving DecidableEq, Repr

/-- `signAccessToken` from `src/routes/auth.js` lines 11-14: payload
`{ sub: id }` (no `type` field), secret `JWT_SECRET || "dev_secret"`,
`expiresIn: "7d"`. -/
def signAccessToken (cfg : Config) (id : Nat) (nowMs : Nat) : Jwt :=
  { payload := { sub := id, type := none, iat := nowMs / 1000,
                 exp := nowMs / 1000 + accessTokenLifeSec },
    secret := cfg.accessSecret }

/-- `signRefreshToken` from `src/routes/auth.js` lines 15-20: payload
`{ sub: id, type: "refresh" }`, secret `JWT_REFRESH_SECRET || "dev_refresh"`,
`expiresIn: "30d"`. -/
def signRefreshToken (cfg : Config) (id : Nat) (nowMs : Nat) : Jwt :=
  { payload := { sub := id, type := some ("refresh"), iat := nowMs / 1000,
                 exp := nowMs / 1000 + refreshTokenLifeSec },
    secret := cfg.refreshSecret }

/-- Failure kinds of `jwt.verify`: `JsonWebTokenError` (bad signature /
malformed) and `TokenExpiredError`. -/
inductive JwtError where
  | malformed
  | expired
deriving DecidableEq, Repr

/-- Model of `jwt.verify(token, secret)` at clock `nowMs`: the signature check
(secret equality) comes first, then the `exp` claim is compared against the
clock in seconds (`jsonwebtoken` rejects when `clockTimestamp >= exp`). -/
def jwtVerify (tok : Jwt) (secret : String) (nowMs : Nat) : Except JwtError JwtPayload :=
  if tok.secret ≠ secret then .error .malformed
  else if tok.payload.exp ≤ nowMs / 1000 then .error .expired
  else .ok tok.payload

/-- An OTP document (`src/models/Otp.js`): phone number, code, expiry
timestamp (ms) and attempt counter (default 0). -/
structure OtpRecord where
  phoneNumber : String
  code : String
  expiresAt : Nat
  attempts : Nat
deriving DecidableEq, Repr

/-- A user document (`src/unnamed/part_002`, the `User` model), restricted to
the fields the authentication core reads or writes.  `id` stands for the Mongo
`_id`; schema defaults are `firstName = "User"`, `lastName = ""`,
`role = "elder"`, `isVerified = false`, `isActive = true`. -/
structure UserRec where
  id : Nat
  phoneNumber : String
  firstName : String
  lastName : String
  role : String
  isVerified : Bool
  isActive : Bool
  age : Option Nat
  address : Option String
  profileImage : Option String
  refreshToken : Option Jwt
  createdAt : Nat
  updatedAt : Nat
deriving DecidableEq, Repr

/-- `Otp.findOne({ phoneNumber })`. -/
def otpFindOne (otps : List OtpRecord) (phone : String) : Option OtpRecord :=
  otps.find? (fun r => r.phoneNumber == phone)

/-- `Otp.deleteOne({ _id: record._id })`, keyed by the record's phone number
(the handlers keep one live record per phone via upsert). -/
def otpDeleteOne (otps : List OtpRecord) (phone : String) : List OtpRecord :=
  otps.filter (fun r => !(r.phoneNumber == phone))

/-- `record.save()`: write the (mutated) document back over the stored one
with the same key. -/
def otpSave (otps : List OtpRecord) (rec : OtpRecord) : List OtpRecord :=
  otps.map (fun r => if r.phoneNumber == rec.phoneNumber then rec else r)

/-- `Otp.findOneAndUpdate({ phoneNumber }, { code, expiresAt, attempts: 0 },
{ upsert: true })`: replace any record for the phone with a fresh one. -/
def otpUpsert (otps : List OtpRecord) (phone code : String) (expiresAt : Nat) :
    List OtpRecord :=
  otpDeleteOne otps phone ++
    [{ phoneNumber := phone, code := code, expiresAt := expiresAt, attempts := 0 }]

/-- `User.findById(id)`. -/
def userFindById (users : List UserRec) (id : Nat) : Option UserRec :=
  users.find? (fun u => u.id == id)

/-- `User.findOne({ phoneNumber })`. -/
def userFindByPhone (users : List UserRec) (phone : String) : Option UserRec :=
  users.find? (fun u => u.phoneNumber == phone)

/-- `user.save()`: write the (mutated) user document back by `_id`. -/
def userSave (users : List UserRec) (u : UserRec) : List UserRec :=
  users.map (fun v => if v.id == u.id then u else v)

/-- `User.findByIdAndUpdate(id, { refreshToken })`; with `timestamps: true`
the update also bumps `updatedAt`. -/
def userStoreRefreshToken (users : List UserRec) (id : Nat) (tok : Jwt) (nowMs : Nat) :
    List UserRec :=
  users.map (fun v =>
    if v.id == id then { v with refreshToken := some tok, updatedAt := nowMs } else v)

/-- The persistent state the authentication handlers touch: the OTP
collection, the user collection, and a fresh-`_id` counter for user creation. -/
structure ServerState where
  otps : List OtpRecord
  users : List UserRec
  nextId : Nat
deriving DecidableEq, Repr

/-- A user freshly created by `User.create({ phoneNumber, isVerified: true,
firstName: "User" })` in the verify handlers; the other fields take the schema
defaults and `timestamps: true` sets both timestamps. -/
def newVerifiedUser (id : Nat) (phone : String) (nowMs : Nat) : UserRec :=
  { id := id, phoneNumber := phone, firstName := "User", lastName := "",
    role := "elder", isVerified := true, isActive := true,
    age := none, address := none, profileImage := none, refreshToken := none,
    createdAt := nowMs, updatedAt := nowMs }

/-- A user freshly created by `User.create({ phoneNumber, firstName: "User" })`
in the send-otp handler; `isVerified` keeps its schema default `false`. -/
def newUnverifiedUser (id : Nat) (phone : String) (nowMs : Nat) : UserRec :=
  { id := id, phoneNumber := phone, firstName := "User", lastName := "",
    role := "elder", isVerified := false, isActive := true,
    age := none, address := none, profileImage := none, refreshToken := none,
    createdAt := nowMs, updatedAt := nowMs }

/-- The sanitized user projection built at `src/routes/auth.js` lines 209-222
(and `src/unnamed/part_012` lines 158-171): the explicitly listed fields, which
do not include the stored `refreshToken`. -/
structure UserResponse where
  id : Nat
  phoneNumber : String
  firstName : String
  lastName : String
  role : String
  isVerified : Bool
  isActive : Bool
  age : Option Nat
  address : Option String
  profileImage : Option String
  createdAt : Nat
  updatedAt : Nat
deriving DecidableEq, Repr

/-- Build the response projection from an in-memory user document. -/
def userResponseOf (u : UserRec) : UserResponse :=
  { id := u.id, phoneNumber := u.phoneNumber, firstName := u.firstName,
    lastName := u.lastName, role := u.role, isVerified := u.isVerified,
    isActive := u.isActive, age := u.age, address := u.address,
    profileImage := u.profileImage, createdAt := u.createdAt,
    updatedAt := u.updatedAt }

/-- Shared success tail of the two OTP verification handlers
(`src/routes/auth.js` lines 191-224 and `src/unnamed/part_012` lines 143-173):
delete the OTP record, mark/create the user as verified, mint the token pair,
persist the refresh token, and build the sanitized projection from the
in-memory user document (which never carries the freshly stored token). -/
def otpLoginSuccess (cfg : Config) (nowMs : Nat) (st : ServerState) (phone : String) :
    (Jwt × Jwt × UserResponse) × ServerState :=
  let otps1 := otpDeleteOne st.otps phone
  match userFindByPhone st.users phone with
  | none =>
    let u := newVerifiedUser st.nextId phone nowMs
    let users1 := st.users ++ [u]
    let rTok := signRefreshToken cfg u.id nowMs
    let users2 := userStoreRefreshToken users1 u.id rTok nowMs
    let aTok := signAccessToken cfg u.id nowMs
    ((aTok, rTok, userResponseOf u),
     { otps := otps1, users := users2, nextId := st.nextId + 1 })
  | some u0 =>
    let u := if u0.isVerified then u0 else { u0 with isVerified := true, updatedAt := nowMs }
    let users1 := if u0.isVerified then st.users else userSave st.users u
    let rTok := signRefreshToken cfg u.id nowMs
    let users2 := userStoreRefreshToken users1 u.id rTok nowMs
    let aTok := signAccessToken cfg u.id nowMs
    ((aTok, rTok, userResponseOf u),
     { otps := otps1, users := users2, nextId := st.nextId })

/-- Outcomes of the `POST /api/auth/verify-otp` handler. -/
inductive VerifyOtpResult where
  | notFound
  | expired
  | tooManyAttempts
  | invalidCode (attemptsRemaining : Nat)
  | success (accessToken : Jwt) (refreshToken : Jwt) (user : UserResponse)
deriving DecidableEq, Repr

/-- The `POST /api/auth/verify-otp` handler, `src/routes/auth.js` lines
149-226: look up the record; 400 `OTP not found` when absent; on
`expiresAt < now` delete the record and answer `OTP expired`; on a code
mismatch increment and persist `attempts`, then delete the record and answer
`Too many failed attempts` when the post-increment counter has reached
`OTP_MAX_ATTEMPTS || 5`, else answer `Invalid OTP` with
`attemptsRemaining = maxAttempts - attempts`; on a match consume the record
and log the user in. -/
def verifyOtp (cfg : Config) (nowMs : Nat) (st : ServerState) (phone otp : String) :
    VerifyOtpResult × ServerState :=
  match otpFindOne st.otps phone with
  | none => (.notFound, st)
  | some otpRecord =>
    if otpRecord.expiresAt < nowMs then
      (.expired, { st with otps := otpDeleteOne st.otps phone })
    else if otpRecord.code ≠ otp then
      let bumped := { otpRecord with attempts := otpRecord.attempts + 1 }
      let otps1 := otpSave st.otps bumped
      if cfg.maxAttempts ≤ bumped.attempts then
        (.tooManyAttempts, { st with otps := otpDeleteOne otps1 phone })
      else
        (.invalidCode (cfg.maxAttempts - bumped.attempts), { st with otps := otps1 })
    else
      let out := otpLoginSuccess cfg nowMs st phone
      (.success out.1.1 out.1.2.1 out.1.2.2, out.2)

/-- Outcomes of the `POST /api/otp/verify` handler: it reports a bare
`Invalid OTP` (no remaining-attempts count) and has no too-many-attempts
outcome. -/
inductive OtpVerifyResult where
  | notFound
  | expired
  | invalidCode
  | success (accessToken : Jwt) (refreshToken : Jwt) (user : UserResponse)
deriving DecidableEq, Repr

/-- The `POST /api/otp/verify` handler, `src/unnamed/part_012` lines 125-175:
like `verifyOtp` it looks up the record and checks expiry and the code, but on
expiry it returns without deleting the record, and on a mismatch it only
increments and persists `attempts` — it never enforces a maximum and never
deletes the record. -/
def otpVerify (cfg : Config) (nowMs : Nat) (st : ServerState) (phone code : String) :
    OtpVerifyResult × ServerState :=
  match otpFindOne st.otps phone with
  | none => (.notFound, st)
  | some record =>
    if record.expiresAt < nowMs then
      (.expired, st)
    else if record.code ≠ code then
      (.invalidCode,
       { st with otps := otpSave st.otps { record with attempts := record.attempts + 1 } })
    else
      let out := otpLoginSuccess cfg nowMs st phone
      (.success out.1.1 out.1.2.1 out.1.2.2, out.2)

/-- Outcomes of the `POST /api/auth/send-otp` handler. -/
inductive SendOtpResult where
  | invalidFormat
  | sent
  | smsFailed
deriving DecidableEq, Repr

/-- The `POST /api/auth/send-otp` handler, `src/routes/auth.js` lines 54-107.
The generated random code arrives as the oracle argument `code`; `smsOk` is
the outcome of the SMS gateway call.  The handler rejects phones without a
leading `+` (the `!phoneNumber || !phoneNumber.startsWith('+')` guard, modelled
as a first-character test, which is equivalent for the one-character prefix),
lazily creates an unverified user, and upserts the OTP record
(fresh code, `expiresAt = now + OTP_TTL_MS || 300000`, attempts reset to 0)
before attempting dispatch, so the record persists even when SMS fails. -/
def sendOtp (cfg : Config) (nowMs : Nat) (st : ServerState) (phone code : String)
    (smsOk : Bool) : SendOtpResult × ServerState :=
  if !(phone.data.head? == some ('+')) then (.invalidFormat, st)
  else
    let users1 :=
      match userFindByPhone st.users phone with
      | some _ => st.users
      | none => st.users ++ [newUnverifiedUser st.nextId phone nowMs]
    let nextId1 :=
      match userFindByPhone st.users phone with
      | some _ => st.nextId
      | none => st.nextId + 1
    let otps1 := otpUpsert st.otps phone code (nowMs + cfg.otpTtlMs)
    ((if smsOk then .sent else .smsFailed),
     { otps := otps1, users := users1, nextId := nextId1 })

/-- The minimal user view returned by the refresh handler
(`src/routes/auth.js` lines 320-327). -/
structure RefreshUserView where
  id : Nat
  phoneNumber : String
  firstName : String
  lastName : String
  role : String
  isVerified : Bool
deriving DecidableEq, Repr

/-- Build the refresh handler's minimal user view. -/
def refreshUserViewOf (u : UserRec) : RefreshUserView :=
  { id := u.id, phoneNumber := u.phoneNumber, firstName := u.firstName,
    lastName := u.lastName, role := u.role, isVerified := u.isVerified }

/-- Outcomes of the `POST /api/auth/refresh` handler, one per distinct 401
reason plus success. -/
inductive RefreshResult where
  | malformed
  | expired
  | wrongTokenKind
  | unknownUser
  | staleToken
  | accountInactive
  | success (accessToken : Jwt) (refreshToken : Jwt) (user : RefreshUserView)
deriving DecidableEq, Repr

/-- The `POST /api/auth/refresh` handler, `src/routes/auth.js` lines 262-349:
verify the submitted token under the refresh secret (`Malformed` / `Expired`
from the catch clauses), require `payload.type === "refresh"`
(`WrongTokenKind`), load the user by `payload.sub` (`UnknownUser`), require
exact equality with the stored refresh token (`StaleToken`), require
`isActive` (`AccountInactive`); then mint and persist a new refresh token
(rotation) and mint a new access token. -/
def refresh (cfg : Config) (nowMs : Nat) (st : ServerState) (refreshTok : Jwt) :
    RefreshResult × ServerState :=
  match jwtVerify refreshTok cfg.refreshSecret nowMs with
  | .error .malformed => (.malformed, st)
  | .error .expired => (.expired, st)
  | .ok payload =>
    if payload.type ≠ some ("refresh") then (.wrongTokenKind, st)
    else
      match userFindById st.users payload.sub with
      | none => (.unknownUser, st)
      | some user =>
        if user.refreshToken ≠ some refreshTok then (.staleToken, st)
        else if !user.isActive then (.accountInactive, st)
        else
          let newR := signRefreshToken cfg user.id nowMs
          let users1 := userStoreRefreshToken st.users user.id newR nowMs
          let newA := signAccessToken cfg user.id nowMs
          (.success newA newR (refreshUserViewOf user), { st with users := users1 })

/-- Outcomes of the request-authenticator middleware
(`src/middleware/auth.js`); every constructor except `ok` is a 401 that leaves
`req.user` unset. -/
inductive AuthResult where
  | noToken
  | malformedToken
  | tokenExpired
  | wrongTokenKind
  | unknownUser
  | accountInactive
  | ok (user : UserRec)
deriving DecidableEq, Repr

/-- The auth middleware, `src/middleware/auth.js`: extract the bearer token
(`NoToken` when absent), verify it under the access secret
(`JWT_SECRET || "dev_secret"`), reject when `payload.type === "refresh"`,
load the user by `payload.sub`, reject missing or inactive users, and
otherwise attach the user to the request. -/
def authenticate (cfg : Config) (nowMs : Nat) (users : List UserRec)
    (bearer : Option Jwt) : AuthResult :=
  match bearer with
  | none => .noToken
  | some tok =>
    match jwtVerify tok cfg.accessSecret nowMs with
    | .error .malformed => .malformedToken
    | .error .expired => .tokenExpired
    | .ok payload =>
      if payload.type = some ("refresh") then .wrongTokenKind
      else
        match userFindById users payload.sub with
        | none => .unknownUser
        | some u => if !u.isActive then .accountInactive else .ok u

/-- Outcomes of the legacy `POST /verify-otp` handler in
`src/unnamed/part_011`.  When no user exists for the phone the handler
dereferences `null` and throws, which surfaces as a server error. -/
inductive SimpleVerifyOtpResult where
  | invalidOtp
  | serverError
  | success (accessToken : Jwt) (refreshToken : Jwt) (user : UserRec)
deriving DecidableEq, Repr

/-- The legacy `POST /verify-otp` handler, `src/unnamed/part_011` lines 21-31:
accept only the fixed code `123456`, set `isVerified` via `findOneAndUpdate`
(returning the updated document), persist a fresh refresh token, and return
the raw in-memory user document — including its previously stored
`refreshToken` field — as the response `user`. -/
def simpleVerifyOtp (cfg : Config) (nowMs : Nat) (st : ServerState) (phone otp : String) :
    SimpleVerifyOtpResult × ServerState :=
  if otp ≠ "123456" then (.invalidOtp, st)
  else
    match userFindByPhone st.users phone with
    | none => (.serverError, st)
    | some u0 =>
      let u := { u0 with isVerified := true, updatedAt := nowMs }
      let users1 := userSave st.users u
      let rTok := signRefreshToken cfg u.id nowMs
      let users2 := userStoreRefreshToken users1 u.id rTok nowMs
      let aTok := signAccessToken cfg u.id nowMs
      (.success aTok rTok u, { st with users := users2 })

/-- Error taxonomy of the refresh flow as named by the spec (§4.2, §7). -/
inductive RefreshCheckError where
  | malformed
  | expired
  | wrongTokenKind
  | unknownUser
  | staleToken
  | accountInactive
deriving DecidableEq, Repr

/-- Map each spec-named refresh failure to the handler outcome it denotes. -/
def refreshErrorResult : RefreshCheckError → RefreshResult
  | .malformed => .malformed
  | .expired => .expired
  | .wrongTokenKind => .wrongTokenKind
  | .unknownUser => .unknownUser
  | .staleToken => .staleToken
  | .accountInactive => .accountInactive

/-- The first failing check of the refresh flow in the spec's fixed order of
precedence (§4.2): signature, expiry, kind discriminator, subject resolution,
stored-token equality, active flag; `none` when every check passes.  This
definition follows the spec's words and is compared against the `refresh`
handler embedded from the source. -/
def refreshFirstFailure (cfg : Config) (nowMs : Nat) (users : List UserRec) (tok : Jwt) :
    Option RefreshCheckError :=
  if tok.secret ≠ cfg.refreshSecret then some .malformed
  else if tok.payload.exp ≤ nowMs / 1000 then some .expired
  else if tok.payload.type ≠ some ("refresh") then some .wrongTokenKind
  else
    match userFindById users tok.payload.sub with
    | none => some .unknownUser
    | some u =>
      if u.refreshToken ≠ some tok then some .staleToken
      else if !u.isActive then some .accountInactive
      else none

/-- Overwrite only the stored `refreshToken` field of user `uid`, leaving
every other field (timestamps included) unchanged: two user stores related by
this function differ only in the persisted refresh-token field. -/
def setStoredRefreshToken (users : List UserRec) (uid : Nat) (w : Option Jwt) :
    List UserRec :=
  users.map (fun v => if v.id == uid then { v with refreshToken := w } else v)

/-- Whether a verify-otp outcome is the `Invalid OTP` response. -/
def VerifyOtpResult.isInvalidCode : VerifyOtpResult → Bool
  | .invalidCode _ => true
  | _ => false

/-- Whether a verify-otp outcome is the success response. -/
def VerifyOtpResult.isSuccess : VerifyOtpResult → Bool
  | .success _ _ _ => true
  | _ => false

/-- The `user` object carried by a legacy verify-otp response, when any. -/
def SimpleVerifyOtpResult.responseUser : SimpleVerifyOtpResult → Option UserRec
  | .success _ _ u => some u
  | _ => none

/-! Concrete inputs used by counterexamples and witnesses. -/

/-- A live OTP record with four failed attempts already recorded. -/
def exRecFourAttempts : OtpRecord :=
  { phoneNumber := "+9477", code := "1234", expiresAt := 600000, attempts := 4 }

/-- State holding only `exRecFourAttempts`. -/
def exStFourAttempts : ServerState :=
  { otps := [exRecFourAttempts], users := [], nextId := 1 }

/-- An OTP record whose expiry has long passed. -/
def exRecExpired : OtpRecord :=
  { phoneNumber := "+9477", code := "1234", expiresAt := 1000, attempts := 0 }

/-- State holding only `exRecExpired`. -/
def exStExpired : ServerState :=
  { otps := [exRecExpired], users := [], nextId := 1 }

/-- A refresh token for user 1 minted at millisecond 0. -/
def exTok : Jwt := signRefreshToken defaultConfig 1 0

/-- An active, verified user whose stored refresh token is `exTok`. -/
def exUser : UserRec :=
  { id := 1, phoneNumber := "+94", firstName := "User", lastName := "",
    role := "elder", isVerified := true, isActive := true,
    age := none, address := none, profileImage := none,
    refreshToken := some exTok, createdAt := 0, updatedAt := 0 }

/-- State holding only `exUser`. -/
def exStUser : ServerState := { otps := [], users := [exUser], nextId := 2 }

/-- Empty initial state. -/
def exStEmpty : ServerState := { otps := [], users := [], nextId := 1 }

/-- State after requesting an OTP twice for `+1`, both requests generating the
same code `123456`. -/
def exStTwiceSameCode : ServerState :=
  (sendOtp defaultConfig 0
    (sendOtp defaultConfig 0 exStEmpty ("+1") ("123456") true).2
    ("+1") ("123456") true).2

/-- A refresh token some other user (id 9) obtained earlier. -/
def exLeakTok : Jwt := signRefreshToken defaultConfig 9 77000

/-- An unverified user with no stored refresh token. -/
def exUserNoTok : UserRec :=
  { id := 1, phoneNumber := "+2", firstName := "User", lastName := "",
    role := "elder", isVerified := false, isActive := true,
    age := none, address := none, profileImage := none,
    refreshToken := none, createdAt := 0, updatedAt := 0 }

/-- The same user with `exLeakTok` stored as refresh token. -/
def exUserWithTok : UserRec := { exUserNoTok with refreshToken := some exLeakTok }

/-- State holding `exUserNoTok`. -/
def exStNoTok : ServerState := { otps := [], users := [exUserNoTok], nextId := 2 }

/-- State identical to `exStNoTok` except for the stored refresh token. -/
def exStWithTok : ServerState := { otps := [], users := [exUserWithTok], nextId := 2 }

/-- A freshly issued OTP record with no failed attempts yet. -/
def exRecFresh : OtpRecord :=
  { phoneNumber := "+9477", code := "1234", expiresAt := 600000, attempts := 0 }

/-- State holding only `exRecFresh`. -/
def exStFresh : ServerState := { otps := [exRecFresh], users := [], nextId := 1 }

/-- `exStFresh` after one failed verification attempt. -/
def exStFreshBumped : ServerState :=
  { exStFresh with otps := otpSave exStFresh.otps { exRecFresh with attempts := 1 } }

/-- `exStUser` after a successful refresh at millisecond 1000 rotated the
stored token. -/
def exStRotated : ServerState :=
  { exStUser with
    users := userStoreRefreshToken exStUser.users 1 (signRefreshToken defaultConfig 1 1000)
      1000 }

/-! List-level helper lemmas about the store operations. -/

theorem find?_map_pres {α : Type} (f : α → α) (p : α → Bool)
    (hp : ∀ a, p (f a) = p a) (l : List α) :
    (l.map f).find? p = (l.find? p).map f := by
  induction l with
  | nil => rfl
  | cons a t ih =>
    cases hpa : p a with
    | true =>
      simp only [List.map_cons, List.find?_cons]
      rw [hp a, hpa]
      rfl
    | false =>
      simp only [List.map_cons, List.find?_cons]
      rw [hp a, hpa]
      exact ih

theorem otpFindOne_eq_some (otps : List OtpRecord) (phone : String) (r : OtpRecord)
    (h : otpFindOne otps phone = some r) : r.phoneNumber = phone := by
  simpa using List.find?_some h

theorem userFindById_eq_some (users : List UserRec) (i : Nat) (u : UserRec)
    (h : userFindById users i = some u) : u.id = i := by
  simpa using List.find?_some h

theorem otpFindOne_deleteOne_self (otps : List OtpRecord) (phone : String) :
    otpFindOne (otpDeleteOne otps phone) phone = none := by
  rw [otpFindOne, List.find?_eq_none]
  intro r hr
  have := (List.mem_filter.1 hr).2
  simpa using this

theorem otpFindOne_deleteOne_ne (otps : List OtpRecord) (phone q : String)
    (h : q ≠ phone) : otpFindOne (otpDeleteOne otps phone) q = otpFindOne otps q := by
  induction otps with
  | nil => rfl
  | cons a t ih =>
    by_cases ha : a.phoneNumber = phone
    · have haq : a.phoneNumber ≠ q := by
        rw [ha]
        exact fun hh => h hh.symm
      have hq : (a.phoneNumber == q) = false := by simp [haq]
      have hdrop : (!(a.phoneNumber == phone)) = false := by simp [ha]
      simp only [otpDeleteOne, List.filter_cons, hdrop] at ih ⊢
      simp only [Bool.false_eq_true, if_false]
      rw [ih]
      simp [otpFindOne, List.find?_cons, hq]
    · have hkeep : (!(a.phoneNumber == phone)) = true := by simp [ha]
      simp only [otpDeleteOne, List.filter_cons, hkeep, if_true] at ih ⊢
      cases hq : (a.phoneNumber == q) with
      | true =>
        simp only [otpFindOne, List.find?_cons, hq]
      | false =>
        simp only [otpFindOne, List.find?_cons, hq]
        exact ih

theorem otpFindOne_save_found (otps : List OtpRecord) (phone : String) (r rec' : OtpRecord)
    (h : otpFindOne otps phone = some r) (hk : rec'.phoneNumber = phone) :
    otpFindOne (otpSave otps rec') phone = some rec' := by
  have hr : r.phoneNumber = phone := otpFindOne_eq_some otps phone r h
  rw [otpFindOne, otpSave, find?_map_pres]
  · rw [otpFindOne] at h
    rw [h]
    simp [hr, hk]
  · intro a
    by_cases ha : a.phoneNumber = rec'.phoneNumber
    · simp [ha, hk]
    · simp [ha]

theorem otpFindOne_save_ne (otps : List OtpRecord) (rec' : OtpRecord) (q : String)
    (h : q ≠ rec'.phoneNumber) :
    otpFindOne (otpSave otps rec') q = otpFindOne otps q := by
  rw [otpFindOne, otpSave, find?_map_pres]
  · rw [← otpFindOne]
    cases hf : otpFindOne otps q with
    | none => rfl
    | some r =>
      have hr : r.phoneNumber = q := otpFindOne_eq_some otps q r hf
      have hrne : r.phoneNumber ≠ rec'.phoneNumber := by
        rw [hr]
        exact h
      simp [hrne]
  · intro a
    by_cases ha : a.phoneNumber = rec'.phoneNumber
    · have haq : a.phoneNumber ≠ q := by
        rw [ha]
        exact fun hh => h hh.symm
      simp [ha, haq]
    · simp [ha]

theorem userFindById_store (users : List UserRec) (i : Nat) (tok : Jwt) (nowMs : Nat) :
    userFindById (userStoreRefreshToken users i tok nowMs) i =
      (userFindById users i).map
        (fun u => { u with refreshToken := some tok, updatedAt := nowMs }) := by
  rw [userFindById, userStoreRefreshToken, find?_map_pres]
  · rw [← userFindById]
    cases hf : userFindById users i with
    | none => rfl
    | some u =>
      have hu : u.id = i := userFindById_eq_some users i u hf
      simp [hu]
  · intro a
    by_cases ha : a.id = i
    · simp [ha]
    · simp [ha]

theorem find?_append_none {α : Type} (p : α → Bool) (l1 l2 : List α)
    (h : l1.find? p = none) : (l1 ++ l2).find? p = l2.find? p := by
  induction l1 with
  | nil => rfl
  | cons a t ih =>
    cases hpa : p a with
    | true =>
      rw [List.find?_cons, hpa] at h
      exact absurd h (by simp)
    | false =>
      rw [List.find?_cons, hpa] at h
      simp only [List.cons_append, List.find?_cons, hpa]
      exact ih h

theorem otpFindOne_upsert (otps : List OtpRecord) (phone code : String) (e : Nat) :
    otpFindOne (otpUpsert otps phone code e) phone =
      some { phoneNumber := phone, code := code, expiresAt := e, attempts := 0 } := by
  rw [otpUpsert, otpFindOne,
      find?_append_none _ _ _ (otpFindOne_deleteOne_self otps phone)]
  simp [List.find?_cons]

theorem userFindByPhone_set (users : List UserRec) (uid : Nat) (w : Option Jwt)
    (phone : String) :
    userFindByPhone (setStoredRefreshToken users uid w) phone =
      (userFindByPhone users phone).map
        (fun v => if v.id == uid then { v with refreshToken := w } else v) := by
  rw [userFindByPhone, setStoredRefreshToken, find?_map_pres]
  · rfl
  · intro a
    by_cases ha : a.id = uid
    · simp [ha]
    · simp [ha]

theorem userResponseOf_setToken (v : UserRec) (w : Option Jwt) :
    userResponseOf { v with refreshToken := w } = userResponseOf v := rfl

theorem refresh_run_error (cfg : Config) (nowMs : Nat) (st : ServerState) (tok : Jwt)
    (e : RefreshCheckError) (h : refreshFirstFailure cfg nowMs st.users tok = some e) :
    refresh cfg nowMs st tok = (refreshErrorResult e, st) := by
  unfold refreshFirstFailure at h
  unfold refresh jwtVerify
  by_cases h1 : tok.secret ≠ cfg.refreshSecret
  · rw [if_pos h1] at h
    injection h with h'
    subst h'
    simp [h1, refreshErrorResult]
  · rw [if_neg h1] at h
    by_cases h2 : tok.payload.exp ≤ nowMs / 1000
    · rw [if_pos h2] at h
      injection h with h'
      subst h'
      simp [h1, h2, refreshErrorResult]
    · rw [if_neg h2] at h
      by_cases h3 : tok.payload.type ≠ some ("refresh")
      · rw [if_pos h3] at h
        injection h with h'
        subst h'
        simp [h1, h2, h3, refreshErrorResult]
      · rw [if_neg h3] at h
        cases hu : userFindById st.users tok.payload.sub with
        | none =>
          rw [hu] at h
          injection h with h'
          subst h'
          simp [h1, h2, h3, hu, refreshErrorResult]
        | some u =>
          rw [hu] at h
          simp only [ne_eq] at h
          by_cases h4 : u.refreshToken ≠ some tok
          · rw [if_pos h4] at h
            injection h with h'
            subst h'
            simp [h1, h2, h3, hu, h4, refreshErrorResult]
          · rw [if_neg h4] at h
            cases h5 : u.isActive with
            | false =>
              rw [h5] at h
              simp only [Bool.not_false, if_true] at h
              injection h with h'
              subst h'
              simp [h1, h2, h3, hu, h4, h5, refreshErrorResult]
            | true =>
              rw [h5] at h
              simp only [Bool.not_true, Bool.false_eq_true, if_false] at h
              exact absurd h (by simp)

theorem refresh_run_success (cfg : Config) (nowMs : Nat) (st : ServerState) (tok : Jwt)
    (h : refreshFirstFailure cfg nowMs st.users tok = none) :
    ∃ u, userFindById st.users tok.payload.sub = some u ∧
      refresh cfg nowMs st tok =
        (RefreshResult.success (signAccessToken cfg u.id nowMs)
           (signRefreshToken cfg u.id nowMs) (refreshUserViewOf u),
         { st with users :=
             userStoreRefreshToken st.users u.id (signRefreshToken cfg u.id nowMs) nowMs }) := by
  unfold refreshFirstFailure at h
  by_cases h1 : tok.secret ≠ cfg.refreshSecret
  · rw [if_pos h1] at h
    exact absurd h (by simp)
  · rw [if_neg h1] at h
    by_cases h2 : tok.payload.exp ≤ nowMs / 1000
    · rw [if_pos h2] at h
      exact absurd h (by simp)
    · rw [if_neg h2] at h
      by_cases h3 : tok.payload.type ≠ some ("refresh")
      · rw [if_pos h3] at h
        exact absurd h (by simp)
      · rw [if_neg h3] at h
        cases hu : userFindById st.users tok.payload.sub with
        | none =>
          rw [hu] at h
          exact absurd h (by simp)
        | some u =>
          rw [hu] at h
          simp only [ne_eq] at h
          by_cases h4 : u.refreshToken ≠ some tok
          · rw [if_pos h4] at h
            exact absurd h (by simp)
          · rw [if_neg h4] at h
            cases h5 : u.isActive with
            | false =>
              rw [h5] at h
              simp only [Bool.not_false, if_true] at h
              exact absurd h (by simp)
            | true =>
              refine ⟨u, rfl, ?_⟩
              unfold refresh jwtVerify
              simp [h1, h2, h3, hu, h4, h5]

/-- C3 (amended): with a record present whose expiry lies strictly before the
clock, both verification handlers answer `Expired` regardless of the submitted
code; the `/api/auth/verify-otp` handler deletes the record as a side effect,
while the `/api/otp/verify` handler leaves the state unchanged. -/
theorem verify_expired_behavior (cfg : Config) (nowMs : Nat) (st : ServerState)
    (phone otp : String) (rec : OtpRecord)
    (hfind : otpFindOne st.otps phone = some rec)
    (hexp : rec.expiresAt < nowMs) :
    verifyOtp cfg nowMs st phone otp =
      (VerifyOtpResult.expired, { st with otps := otpDeleteOne st.otps phone }) ∧
    otpFindOne (verifyOtp cfg nowMs st phone otp).2.otps phone = none ∧
    otpVerify cfg nowMs st phone otp = (OtpVerifyResult.expired, st) := by
  have h1 : verifyOtp cfg nowMs st phone otp =
      (VerifyOtpResult.expired, { st with otps := otpDeleteOne st.otps phone }) := by
    unfold verifyOtp
    rw [hfind]
    simp [hexp]
  refine ⟨h1, ?_, ?_⟩
  · rw [h1]
    exact otpFindOne_deleteOne_self st.otps phone
  · unfold otpVerify
    rw [hfind]
    simp [hexp]

/-- C1 (corrected): when a live, unexpired record exists for the phone and the
submitted code differs from the stored one, the `/api/auth/verify-otp` handler
increments and persists the attempt counter, deletes the record and reports
too-many-attempts when the post-increment counter has reached the configured
maximum, and otherwise reports an invalid code carrying
`attemptsRemaining = maxAttempts - attempts`; the `/api/otp/verify` handler
only increments and persists the counter and always reports a bare
invalid-code outcome, never deleting the record. -/
theorem verifyOtp_wrong_code_attempt_policy
    (cfg : Config) (nowMs : Nat) (st : ServerState) (phone otp : String)
    (rec : OtpRecord)
    (hfind : otpFindOne st.otps phone = some rec)
    (hexp : ¬ rec.expiresAt < nowMs)
    (hcode : rec.code ≠ otp) :
    (cfg.maxAttempts ≤ rec.attempts + 1 →
       verifyOtp cfg nowMs st phone otp =
         (VerifyOtpResult.tooManyAttempts,
          { st with otps := otpDeleteOne (otpSave st.otps { rec with attempts := rec.attempts + 1 }) phone }) ∧
       otpFindOne (verifyOtp cfg nowMs st phone otp).2.otps phone = none) ∧
    (rec.attempts + 1 < cfg.maxAttempts →
       verifyOtp cfg nowMs st phone otp =
         (VerifyOtpResult.invalidCode (cfg.maxAttempts - (rec.attempts + 1)),
          { st with otps := otpSave st.otps { rec with attempts := rec.attempts + 1 } }) ∧
       otpFindOne (verifyOtp cfg nowMs st phone otp).2.otps phone =
         some { rec with attempts := rec.attempts + 1 }) ∧
    otpVerify cfg nowMs st phone otp =
      (OtpVerifyResult.invalidCode,
       { st with otps := otpSave st.otps { rec with attempts := rec.attempts + 1 } }) := by
  have hbp : ({ rec with attempts := rec.attempts + 1 } : OtpRecord).phoneNumber = phone := by
    simpa using otpFindOne_eq_some st.otps phone rec hfind
  refine ⟨?_, ?_, ?_⟩
  · intro hmax
    have heq : verifyOtp cfg nowMs st phone otp =
        (VerifyOtpResult.tooManyAttempts,
         { st with otps := otpDeleteOne (otpSave st.otps { rec with attempts := rec.attempts + 1 }) phone }) := by
      unfold verifyOtp
      rw [hfind]
      simp [hexp, hcode, hmax]
    refine ⟨heq, ?_⟩
    rw [heq]
    exact otpFindOne_deleteOne_self _ _
  · intro hlt
    have hmax' : ¬ cfg.maxAttempts ≤ rec.attempts + 1 := not_le.2 hlt
    have heq : verifyOtp cfg nowMs st phone otp =
        (VerifyOtpResult.invalidCode (cfg.maxAttempts - (rec.attempts + 1)),
         { st with otps := otpSave st.otps { rec with attempts := rec.attempts + 1 } }) := by
      unfold verifyOtp
      rw [hfind]
      simp [hexp, hcode, hmax']
    refine ⟨heq, ?_⟩
    rw [heq]
    exact otpFindOne_save_found st.otps phone rec _ hfind hbp
  · unfold otpVerify
    rw [hfind]
    simp [hexp, hcode]

/-- C4 (confirmed): with a live, unexpired record whose attempt counter is
below the cap, submitting the exact stored code succeeds, the record is
deleted, and an immediately repeated verification with the same phone and
code fails with the not-found outcome. -/
theorem verifyOtp_correct_code_single_use
    (cfg : Config) (nowMs : Nat) (st : ServerState) (phone otp : String)
    (rec : OtpRecord)
    (hfind : otpFindOne st.otps phone = some rec)
    (hexp : ¬ rec.expiresAt < nowMs)
    (hatt : rec.attempts < cfg.maxAttempts)
    (hcode : rec.code = otp) :
    (∃ a r v, (verifyOtp cfg nowMs st phone otp).1 = VerifyOtpResult.success a r v) ∧
    (verifyOtp cfg nowMs st phone otp).2.otps = otpDeleteOne st.otps phone ∧
    otpFindOne (verifyOtp cfg nowMs st phone otp).2.otps phone = none ∧
    ∀ nowMs2, (verifyOtp cfg nowMs2 (verifyOtp cfg nowMs st phone otp).2 phone otp).1 =
      VerifyOtpResult.notFound := by
  have h2 : (verifyOtp cfg nowMs st phone otp).2.otps = otpDeleteOne st.otps phone := by
    unfold verifyOtp otpLoginSuccess
    rw [hfind]
    cases hu : userFindByPhone st.users phone <;> simp [hexp, hcode, hu]
  have h1 : ∃ a r v, (verifyOtp cfg nowMs st phone otp).1 =
      VerifyOtpResult.success a r v := by
    unfold verifyOtp
    rw [hfind]
    simp only [ne_eq]
    rw [if_neg hexp]
    rw [if_neg (by simp [hcode])]
    exact ⟨_, _, _, rfl⟩
  have h3 : otpFindOne (verifyOtp cfg nowMs st phone otp).2.otps phone = none := by
    rw [h2]
    exact otpFindOne_deleteOne_self st.otps phone
  refine ⟨h1, h2, h3, ?_⟩
  intro nowMs2
  generalize hst2 : (verifyOtp cfg nowMs st phone otp).2 = st2 at h3
  unfold verifyOtp
  rw [h3]

/-- C10 (confirmed): whenever the `/api/auth/verify-otp` handler reports an
invalid code, the only persisted change is the increment of the matched
record's attempt counter: the record still exists with its phone, code and
expiry intact, every other phone's record is untouched, and the user
collection (identities and stored refresh tokens) is unmodified. -/
theorem verifyOtp_invalid_code_frame
    (cfg : Config) (nowMs : Nat) (st : ServerState) (phone otp : String)
    (k : Nat) (st' : ServerState)
    (h : verifyOtp cfg nowMs st phone otp = (VerifyOtpResult.invalidCode k, st')) :
    ∃ rec, otpFindOne st.otps phone = some rec ∧
      st'.users = st.users ∧
      st'.nextId = st.nextId ∧
      st'.otps = otpSave st.otps { rec with attempts := rec.attempts + 1 } ∧
      otpFindOne st'.otps phone = some { rec with attempts := rec.attempts + 1 } ∧
      ∀ q, q ≠ phone → otpFindOne st'.otps q = otpFindOne st.otps q := by
  unfold verifyOtp at h
  cases hrec : otpFindOne st.otps phone with
  | none =>
    rw [hrec] at h
    exact absurd h (by simp)
  | some rec =>
    rw [hrec] at h
    simp only [ne_eq] at h
    by_cases hexp : rec.expiresAt < nowMs
    · rw [if_pos hexp] at h
      exact absurd h (by simp)
    · rw [if_neg hexp] at h
      by_cases hcode : ¬ rec.code = otp
      · rw [if_pos hcode] at h
        by_cases hmax : cfg.maxAttempts ≤ rec.attempts + 1
        · simp only [hmax, if_true] at h
          exact absurd h (by simp)
        · simp only [hmax, if_false] at h
          simp only [Prod.mk.injEq, VerifyOtpResult.invalidCode.injEq] at h
          obtain ⟨-, hst⟩ := h
          have hbp : ({ rec with attempts := rec.attempts + 1 } : OtpRecord).phoneNumber =
              phone := by
            simpa using otpFindOne_eq_some st.otps phone rec hrec
          refine ⟨rec, rfl, ?_, ?_, ?_, ?_, ?_⟩
          · rw [← hst]
          · rw [← hst]
          · rw [← hst]
          · rw [← hst]
            exact otpFindOne_save_found st.otps phone rec _ hrec hbp
          · intro q hq
            rw [← hst]
            exact otpFindOne_save_ne st.otps _ q (by rw [hbp]; exact hq)
      · rw [if_neg hcode] at h
        exact absurd h (by simp)

/-- C6 (confirmed): for every input the refresh handler's outcome is
determined by the first failing check in the spec's fixed order — signature,
expiry, kind discriminator, subject resolution, stored-token equality, active
flag — with the state unchanged on failure; when every check passes, a new
access/refresh pair is minted from the subject and the stored refresh token is
rotated to the newly minted one. -/
theorem refresh_first_failing_check (cfg : Config) (nowMs : Nat) (st : ServerState)
    (tok : Jwt) :
    (∀ e, refreshFirstFailure cfg nowMs st.users tok = some e →
       refresh cfg nowMs st tok = (refreshErrorResult e, st)) ∧
    (refreshFirstFailure cfg nowMs st.users tok = none →
       ∃ u, userFindById st.users tok.payload.sub = some u ∧
         refresh cfg nowMs st tok =
           (RefreshResult.success (signAccessToken cfg u.id nowMs)
              (signRefreshToken cfg u.id nowMs) (refreshUserViewOf u),
            { st with users := userStoreRefreshToken st.users u.id (signRefreshToken cfg u.id nowMs) nowMs })) :=
  ⟨fun e he => refresh_run_error cfg nowMs st tok e he,
   fun hn => refresh_run_success cfg nowMs st tok hn⟩

/-- C2 (corrected): when a refresh call succeeds, the stored refresh token is
overwritten with the newly minted one; provided that newly minted token
differs from the submitted token `t` (which holds whenever the rotation
happens in a different second than `t`'s minting, HS256 signing being
deterministic), any subsequent refresh call submitting `t` against the
post-rotation state while `t` is unexpired fails with the stale-token
outcome. -/
theorem refresh_rotation_one_shot (cfg : Config) (nowMs nowMs2 : Nat)
    (st st' : ServerState) (t a r : Jwt) (v : RefreshUserView)
    (h1 : refresh cfg nowMs st t = (RefreshResult.success a r v, st'))
    (hne : r ≠ t)
    (hexp2 : nowMs2 / 1000 < t.payload.exp) :
    (∃ u, userFindById st.users t.payload.sub = some u ∧
       r = signRefreshToken cfg u.id nowMs ∧
       userFindById st'.users t.payload.sub =
         some { u with refreshToken := some r, updatedAt := nowMs }) ∧
    (refresh cfg nowMs2 st' t).1 = RefreshResult.staleToken := by
  cases hf : refreshFirstFailure cfg nowMs st.users t with
  | some e =>
    have herr := refresh_run_error cfg nowMs st t e hf
    rw [herr] at h1
    cases e <;> simp [refreshErrorResult] at h1
  | none =>
    obtain ⟨u, hu, heq⟩ := refresh_run_success cfg nowMs st t hf
    rw [heq] at h1
    simp only [Prod.mk.injEq, RefreshResult.success.injEq] at h1
    obtain ⟨⟨ha, hr, hv⟩, hst⟩ := h1
    have hsec : t.secret = cfg.refreshSecret ∧ t.payload.type = some ("refresh") := by
      unfold refreshFirstFailure at hf
      by_cases hs : t.secret ≠ cfg.refreshSecret
      · rw [if_pos hs] at hf
        exact absurd hf (by simp)
      · rw [if_neg hs] at hf
        by_cases he : t.payload.exp ≤ nowMs / 1000
        · rw [if_pos he] at hf
          exact absurd hf (by simp)
        · rw [if_neg he] at hf
          by_cases ht : t.payload.type ≠ some ("refresh")
          · rw [if_pos ht] at hf
            exact absurd hf (by simp)
          · exact ⟨not_not.1 hs, not_not.1 ht⟩
    have huid : u.id = t.payload.sub := userFindById_eq_some st.users t.payload.sub u hu
    have hu' : userFindById st.users u.id = some u := by
      rw [huid]
      exact hu
    have hfind' : userFindById st'.users t.payload.sub =
        some { u with refreshToken := some r, updatedAt := nowMs } := by
      rw [← hst]
      show userFindById
        (userStoreRefreshToken st.users u.id (signRefreshToken cfg u.id nowMs) nowMs)
        t.payload.sub = _
      rw [← huid, userFindById_store, hu']
      rw [hr]
      rfl
    refine ⟨⟨u, hu, hr.symm, hfind'⟩, ?_⟩
    have hcond : ({ u with refreshToken := some r, updatedAt := nowMs } : UserRec).refreshToken
        ≠ some t := fun hh => hne (Option.some.inj hh)
    have hstale : refreshFirstFailure cfg nowMs2 st'.users t =
        some RefreshCheckError.staleToken := by
      unfold refreshFirstFailure
      rw [if_neg (not_not_intro hsec.1), if_neg (not_le.2 hexp2),
          if_neg (not_not_intro hsec.2), hfind']
      simp [hcond]
    have h2 := refresh_run_error cfg nowMs2 st' t RefreshCheckError.staleToken hstale
    rw [h2]
    rfl

/-- C5 (confirmed): any bearer token carrying the refresh-kind discriminator,
and more generally any bearer token not signed with the access secret, is
rejected by the request authenticator with an unauthorized outcome: no
identity is ever attached (the result is never `ok`), and the rejection is a
token-level 401, not the missing-token case. -/
theorem authenticate_rejects_refresh_and_foreign (cfg : Config) (nowMs : Nat)
    (users : List UserRec) (t : Jwt)
    (h : t.payload.type = some ("refresh") ∨ t.secret ≠ cfg.accessSecret) :
    (∀ u, authenticate cfg nowMs users (some t) ≠ AuthResult.ok u) ∧
    authenticate cfg nowMs users (some t) ≠ AuthResult.noToken := by
  unfold authenticate jwtVerify
  by_cases hs : t.secret = cfg.accessSecret
  · have ht : t.payload.type = some ("refresh") := h.resolve_right (not_not_intro hs)
    by_cases he : t.payload.exp ≤ nowMs / 1000
    · simp [hs, he]
    · simp [hs, he, ht]
  · simp [hs]

/-- C9 (confirmed): the request authenticator attaches identity `u` exactly
when the bearer token is signed with the access secret, unexpired, its `type`
field is absent or different from the refresh discriminator, and its subject
resolves to the stored user `u` whose active flag is set — in particular any
token signed with the access secret and lacking a `type` field authenticates
whenever its subject is a live active user. -/
theorem authenticate_acceptance_iff (cfg : Config) (nowMs : Nat)
    (users : List UserRec) (t : Jwt) (u : UserRec) :
    authenticate cfg nowMs users (some t) = AuthResult.ok u ↔
      (t.secret = cfg.accessSecret ∧ nowMs / 1000 < t.payload.exp ∧
       t.payload.type ≠ some ("refresh") ∧
       userFindById users t.payload.sub = some u ∧ u.isActive = true) := by
  by_cases hs : t.secret = cfg.accessSecret
  · by_cases he : t.payload.exp ≤ nowMs / 1000
    · have hres : authenticate cfg nowMs users (some t) = AuthResult.tokenExpired := by
        unfold authenticate jwtVerify
        simp [hs, he]
      rw [hres]
      constructor
      · intro hh
        exact absurd hh (by simp)
      · rintro ⟨-, h2, -⟩
        exact absurd h2 (not_lt.2 he)
    · by_cases ht : t.payload.type = some ("refresh")
      · have hres : authenticate cfg nowMs users (some t) = AuthResult.wrongTokenKind := by
          unfold authenticate jwtVerify
          simp [hs, he, ht]
        rw [hres]
        constructor
        · intro hh
          exact absurd hh (by simp)
        · rintro ⟨-, -, h3, -⟩
          exact absurd ht h3
      · cases hu : userFindById users t.payload.sub with
        | none =>
          have hres : authenticate cfg nowMs users (some t) = AuthResult.unknownUser := by
            unfold authenticate jwtVerify
            simp [hs, he, ht, hu]
          rw [hres]
          constructor
          · intro hh
            exact absurd hh (by simp)
          · rintro ⟨-, -, -, h4, -⟩
            exact Option.noConfusion h4
        | some w =>
          cases hw : w.isActive with
          | false =>
            have hres : authenticate cfg nowMs users (some t) =
                AuthResult.accountInactive := by
              unfold authenticate jwtVerify
              simp [hs, he, ht, hu, hw]
            rw [hres]
            constructor
            · intro hh
              exact absurd hh (by simp)
            · rintro ⟨-, -, -, h4, h5⟩
              injection h4 with h4'
              subst h4'
              rw [hw] at h5
              exact Bool.noConfusion h5
          | true =>
            have hres : authenticate cfg nowMs users (some t) = AuthResult.ok w := by
              unfold authenticate jwtVerify
              simp [hs, he, ht, hu, hw]
            rw [hres]
            constructor
            · intro hh
              injection hh with hh'
              subst hh'
              exact ⟨hs, not_le.1 he, ht, rfl, hw⟩
            · rintro ⟨-, -, -, h4, -⟩
              injection h4 with h4'
              subst h4'
              rfl
  · have hres : authenticate cfg nowMs users (some t) = AuthResult.malformedToken := by
      unfold authenticate jwtVerify
      simp [hs]
    rw [hres]
    constructor
    · intro hh
      exact absurd hh (by simp)
    · rintro ⟨h1', -⟩
      exact absurd h1' hs

theorem otpLoginSuccess_fst_set (cfg : Config) (nowMs : Nat) (st : ServerState)
    (phone : String) (uid : Nat) (w : Option Jwt) :
    (otpLoginSuccess cfg nowMs
       { st with users := setStoredRefreshToken st.users uid w } phone).1 =
      (otpLoginSuccess cfg nowMs st phone).1 := by
  unfold otpLoginSuccess
  simp only [userFindByPhone_set]
  cases hu : userFindByPhone st.users phone with
  | none => simp
  | some v =>
    by_cases hv : v.id = uid
    · cases hver : v.isVerified with
      | true => simp [hv, hver, userResponseOf]
      | false => simp [hv, hver, userResponseOf]
    · simp [hv]

theorem sendOtp_state (cfg : Config) (nowMs : Nat) (st : ServerState)
    (phone code : String) (smsOk : Bool)
    (hplus : (phone.data.head? == some ('+')) = true) :
    (sendOtp cfg nowMs st phone code smsOk).2.otps =
      otpUpsert st.otps phone code (nowMs + cfg.otpTtlMs) := by
  unfold sendOtp
  simp [hplus]

/-- C7 (amended): requesting a passcode twice in succession overwrites the
stored record with the second request's code and a fresh expiry and resets the
attempt counter to zero; provided the two generated codes differ, verifying
the first code right after the second request fails with an invalid-code
outcome carrying `attemptsRemaining = maxAttempts - 1`. -/
theorem sendOtp_twice_invalidates_distinct_first_code
    (cfg : Config) (nowMs : Nat) (st : ServerState) (phone c1 c2 : String)
    (ok1 ok2 : Bool)
    (hplus : (phone.data.head? == some ('+')) = true)
    (hne : c1 ≠ c2)
    (hmax : 1 < cfg.maxAttempts) :
    otpFindOne ((sendOtp cfg nowMs (sendOtp cfg nowMs st phone c1 ok1).2 phone c2
        ok2).2).otps phone =
      some { phoneNumber := phone, code := c2, expiresAt := nowMs + cfg.otpTtlMs,
             attempts := 0 } ∧
    (verifyOtp cfg nowMs
        (sendOtp cfg nowMs (sendOtp cfg nowMs st phone c1 ok1).2 phone c2 ok2).2
        phone c1).1 =
      VerifyOtpResult.invalidCode (cfg.maxAttempts - 1) := by
  have hfind : otpFindOne ((sendOtp cfg nowMs (sendOtp cfg nowMs st phone c1 ok1).2
      phone c2 ok2).2).otps phone =
      some { phoneNumber := phone, code := c2, expiresAt := nowMs + cfg.otpTtlMs,
             attempts := 0 } := by
    rw [sendOtp_state cfg nowMs _ phone c2 ok2 hplus]
    exact otpFindOne_upsert _ phone c2 (nowMs + cfg.otpTtlMs)
  refine ⟨hfind, ?_⟩
  unfold verifyOtp
  rw [hfind]
  have hexp : ¬ nowMs + cfg.otpTtlMs < nowMs := by
    exact not_lt.2 (Nat.le_add_right nowMs cfg.otpTtlMs)
  have hm : ¬ cfg.maxAttempts ≤ 0 + 1 := by omega
  simp [hexp, hne.symm, hm]

/-- C8 (corrected): the outcomes of the `/api/auth/verify-otp` and
`/api/otp/verify` handlers — the sanitized user projection included — are
identical across any two states that differ only in a stored user's
refresh-token field, because the projection never reads that field; the
legacy simple verify-otp handler of `src/unnamed/part_011`, by contrast,
returns the raw user document together with its stored refresh token. -/
theorem verify_response_independent_of_stored_refresh_token
    (cfg : Config) (nowMs : Nat) (st : ServerState) (phone otp : String)
    (uid : Nat) (w : Option Jwt) :
    (verifyOtp cfg nowMs { st with users := setStoredRefreshToken st.users uid w }
        phone otp).1 =
      (verifyOtp cfg nowMs st phone otp).1 ∧
    (otpVerify cfg nowMs { st with users := setStoredRefreshToken st.users uid w }
        phone otp).1 =
      (otpVerify cfg nowMs st phone otp).1 := by
  have hlogin := otpLoginSuccess_fst_set cfg nowMs st phone uid w
  constructor
  · unfold verifyOtp
    cases hrec : otpFindOne st.otps phone with
    | none => simp [hrec]
    | some rec =>
      by_cases hexp : rec.expiresAt < nowMs
      · simp [hrec, hexp]
      · by_cases hcode : rec.code = otp
        · simp [hrec, hexp, hcode, hlogin]
        · by_cases hm : cfg.maxAttempts ≤ rec.attempts + 1 <;>
            simp [hrec, hexp, hcode, hm]
  · unfold otpVerify
    cases hrec : otpFindOne st.otps phone with
    | none => simp [hrec]
    | some rec =>
      by_cases hexp : rec.expiresAt < nowMs
      · simp [hrec, hexp]
      · by_cases hcode : rec.code = otp
        · simp [hrec, hexp, hcode, hlogin]
        · simp [hrec, hexp, hcode]

/-- C1 counterexample: on the `/api/otp/verify` handler, a live record with a
fifth consecutive wrong code (post-increment counter equal to the default
maximum of 5) yields a bare invalid-code outcome and the record persists with
`attempts = 5` — not the claimed deletion with a too-many-attempts outcome. -/
theorem otpVerify_attempt_cap_not_enforced :
    exRecFourAttempts.attempts + 1 = defaultConfig.maxAttempts ∧
    otpVerify defaultConfig 0 exStFourAttempts ("+9477") ("0000") =
      (OtpVerifyResult.invalidCode,
       { otps := [{ phoneNumber := "+9477", code := "1234", expiresAt := 600000,
                    attempts := 5 }],
         users := [], nextId := 1 }) ∧
    otpFindOne (otpVerify defaultConfig 0 exStFourAttempts ("+9477") ("0000")).2.otps
        ("+9477") =
      some { phoneNumber := "+9477", code := "1234", expiresAt := 600000,
             attempts := 5 } := by
  decide

/-- C2 counterexample: a refresh in the same second the submitted token was
minted re-mints the identical token (JWT signing is deterministic and `iat`
has second granularity), so the rotation stores the very same token and a
second refresh submitting the original token succeeds instead of failing with
the stale-token outcome. -/
theorem refresh_same_second_replay_accepted :
    (refresh defaultConfig 500 exStUser exTok).1 =
      RefreshResult.success (signAccessToken defaultConfig 1 500) exTok
        (refreshUserViewOf exUser) ∧
    (refresh defaultConfig 999 (refresh defaultConfig 500 exStUser exTok).2 exTok).1 =
      RefreshResult.success (signAccessToken defaultConfig 1 999) exTok
        (refreshUserViewOf exUser) := by
  decide

/-- C3 counterexample: on the `/api/otp/verify` handler an expired record
produces the expired outcome with the state unchanged — the record is not
deleted as the claim states (here even the submitted code is the stored
one). -/
theorem otpVerify_expired_record_not_deleted :
    otpVerify defaultConfig 2000000 exStExpired ("+9477") ("1234") =
      (OtpVerifyResult.expired, exStExpired) ∧
    otpFindOne (otpVerify defaultConfig 2000000 exStExpired ("+9477")
        ("1234")).2.otps ("+9477") = some exRecExpired := by
  decide

/-- C7 counterexample: when the second passcode request happens to generate
the same random code as the first (both `123456` here), verifying "the first
request's code" after the second request succeeds instead of failing with an
invalid-code outcome. -/
theorem sendOtp_twice_same_code_first_code_still_valid :
    VerifyOtpResult.isInvalidCode
      (verifyOtp defaultConfig 0 exStTwiceSameCode ("+1") ("123456")).1 = false ∧
    VerifyOtpResult.isSuccess
      (verifyOtp defaultConfig 0 exStTwiceSameCode ("+1") ("123456")).1 = true := by
  decide

/-- C8 counterexample: the legacy `src/unnamed/part_011` verify-otp handler
returns the raw user document, so its success response carries the stored
refresh-token field, and two states that differ only in that field produce
different response users. -/
theorem simpleVerifyOtp_leaks_stored_refresh_token :
    exStWithTok.users = setStoredRefreshToken exStNoTok.users 1 (some exLeakTok) ∧
    ((simpleVerifyOtp defaultConfig 0 exStWithTok ("+2") ("123456")).1.responseUser).map
        UserRec.refreshToken = some (some exLeakTok) ∧
    (simpleVerifyOtp defaultConfig 0 exStWithTok ("+2") ("123456")).1.responseUser ≠
      (simpleVerifyOtp defaultConfig 0 exStNoTok ("+2") ("123456")).1.responseUser := by
  decide

/-- C1 witness: `verifyOtp_wrong_code_attempt_policy` at a concrete state with
four prior failed attempts; the fifth wrong code deletes the record and
reports too-many-attempts. -/
theorem verifyOtp_wrong_code_attempt_policy_witness :
    verifyOtp defaultConfig 0 exStFourAttempts ("+9477") ("0000") =
      (VerifyOtpResult.tooManyAttempts,
       { exStFourAttempts with otps := otpDeleteOne (otpSave exStFourAttempts.otps { exRecFourAttempts with attempts := exRecFourAttempts.attempts + 1 }) ("+9477") }) ∧
    otpFindOne (verifyOtp defaultConfig 0 exStFourAttempts ("+9477") ("0000")).2.otps
      ("+9477") = none :=
  (verifyOtp_wrong_code_attempt_policy defaultConfig 0 exStFourAttempts ("+9477")
    ("0000") exRecFourAttempts (by decide) (by decide) (by decide)).1 (by decide)

/-- C2 witness: `refresh_rotation_one_shot` at a rotation one second after the
original token's minting; the replayed original token then fails with the
stale-token outcome. -/
theorem refresh_rotation_one_shot_witness :
    (∃ u, userFindById exStUser.users exTok.payload.sub = some u ∧
       signRefreshToken defaultConfig 1 1000 = signRefreshToken defaultConfig u.id 1000 ∧
       userFindById exStRotated.users exTok.payload.sub =
         some { u with refreshToken := some (signRefreshToken defaultConfig 1 1000), updatedAt := 1000 }) ∧
    (refresh defaultConfig 2000 exStRotated exTok).1 = RefreshResult.staleToken :=
  refresh_rotation_one_shot defaultConfig 1000 2000 exStUser exStRotated exTok
    (signAccessToken defaultConfig 1 1000) (signRefreshToken defaultConfig 1 1000)
    (refreshUserViewOf exUser) (by decide) (by decide) (by decide)

/-- C3 witness: `verify_expired_behavior` at a concrete expired record with a
mismatching code. -/
theorem verify_expired_behavior_witness :
    verifyOtp defaultConfig 2000000 exStExpired ("+9477") ("0000") =
      (VerifyOtpResult.expired,
       { exStExpired with otps := otpDeleteOne exStExpired.otps ("+9477") }) ∧
    otpFindOne (verifyOtp defaultConfig 2000000 exStExpired ("+9477") ("0000")).2.otps
      ("+9477") = none ∧
    otpVerify defaultConfig 2000000 exStExpired ("+9477") ("0000") =
      (OtpVerifyResult.expired, exStExpired) :=
  verify_expired_behavior defaultConfig 2000000 exStExpired ("+9477") ("0000")
    exRecExpired (by decide) (by decide)

/-- C4 witness: `verifyOtp_correct_code_single_use` at a live record with four
failed attempts (still below the cap of five) and the exact stored code. -/
theorem verifyOtp_correct_code_single_use_witness :
    (∃ a r v, (verifyOtp defaultConfig 0 exStFourAttempts ("+9477") ("1234")).1 =
       VerifyOtpResult.success a r v) ∧
    (verifyOtp defaultConfig 0 exStFourAttempts ("+9477") ("1234")).2.otps =
      otpDeleteOne exStFourAttempts.otps ("+9477") ∧
    otpFindOne (verifyOtp defaultConfig 0 exStFourAttempts ("+9477") ("1234")).2.otps
      ("+9477") = none ∧
    ∀ nowMs2, (verifyOtp defaultConfig nowMs2
        (verifyOtp defaultConfig 0 exStFourAttempts ("+9477") ("1234")).2 ("+9477")
        ("1234")).1 = VerifyOtpResult.notFound :=
  verifyOtp_correct_code_single_use defaultConfig 0 exStFourAttempts ("+9477") ("1234")
    exRecFourAttempts (by decide) (by decide) (by decide) (by decide)

/-- C5 witness: `authenticate_rejects_refresh_and_foreign` at a refresh token
presented to the request authenticator. -/
theorem authenticate_rejects_refresh_and_foreign_witness :
    (∀ u, authenticate defaultConfig 0 ([] : List UserRec) (some exTok) ≠
       AuthResult.ok u) ∧
    authenticate defaultConfig 0 ([] : List UserRec) (some exTok) ≠
      AuthResult.noToken :=
  authenticate_rejects_refresh_and_foreign defaultConfig 0 ([] : List UserRec) exTok
    (Or.inl (by decide))

/-- C6 witness: `refresh_first_failing_check` at a token whose checks first
fail at the stored-token equality, yielding the stale-token outcome with the
state unchanged. -/
theorem refresh_first_failing_check_witness :
    refresh defaultConfig 0 exStUser (signRefreshToken defaultConfig 1 5000) =
      (refreshErrorResult RefreshCheckError.staleToken, exStUser) :=
  (refresh_first_failing_check defaultConfig 0 exStUser
    (signRefreshToken defaultConfig 1 5000)).1 RefreshCheckError.staleToken (by decide)

/-- C7 witness: `sendOtp_twice_invalidates_distinct_first_code` with two
distinct generated codes; the first code then draws an invalid-code outcome
with four attempts remaining. -/
theorem sendOtp_twice_invalidates_distinct_first_code_witness :
    otpFindOne ((sendOtp defaultConfig 0
        (sendOtp defaultConfig 0 exStEmpty ("+1") ("111111") true).2 ("+1") ("222222")
        true).2).otps ("+1") =
      some { phoneNumber := "+1", code := "222222",
             expiresAt := 0 + defaultConfig.otpTtlMs, attempts := 0 } ∧
    (verifyOtp defaultConfig 0
        (sendOtp defaultConfig 0
          (sendOtp defaultConfig 0 exStEmpty ("+1") ("111111") true).2 ("+1") ("222222")
          true).2 ("+1") ("111111")).1 =
      VerifyOtpResult.invalidCode (defaultConfig.maxAttempts - 1) :=
  sendOtp_twice_invalidates_distinct_first_code defaultConfig 0 exStEmpty ("+1")
    ("111111") ("222222") true true (by decide) (by decide) (by decide)

/-- C10 witness: `verifyOtp_invalid_code_frame` at a concrete first failed
attempt: only the record's counter changes. -/
theorem verifyOtp_invalid_code_frame_witness :
    ∃ rec, otpFindOne exStFresh.otps ("+9477") = some rec ∧
      exStFreshBumped.users = exStFresh.users ∧
      exStFreshBumped.nextId = exStFresh.nextId ∧
      exStFreshBumped.otps = otpSave exStFresh.otps { rec with attempts := rec.attempts + 1 } ∧
      otpFindOne exStFreshBumped.otps ("+9477") =
        some { rec with attempts := rec.attempts + 1 } ∧
      ∀ q, q ≠ ("+9477") → otpFindOne exStFreshBumped.otps q = otpFindOne exStFresh.otps q :=
  verifyOtp_invalid_code_frame defaultConfig 0 exStFresh ("+9477") ("0000") 4
    exStFreshBumped (by decide)

end ElderConnect
